import Mathlib

/-!
Shallow embedding of the `Analytics` class of the wontum-player telemetry
pipeline (source: the WebSocket-capable `Analytics` class, `trackEvent`,
`updateMetrics`, `getQoEMetrics`, `sendEvent`, `sendToWebSocket`,
`initializeWebSocket`, `getEvents`, `getMetrics`, `destroy`).

Modelling conventions:
- JavaScript numbers are modelled exactly over `ℚ` (counters over `ℕ`/`ℤ`);
  timestamps (`Date.now()` values) are `ℕ` milliseconds.
- JavaScript truthiness on a nullable numeric field (`if (this.playbackStartTime)`)
  is `truthyNum`: false for `null` and for `0`.
- `Date.now()` is passed in explicitly as a `now` argument, so time-dependent
  behaviour is a pure function of the injected clock value.
- Exceptions are modelled with `Except`; a `try/catch` with a catch-all handler
  is `jsTryCatch`.
- Object spread `\x7b...a, ...b\x7d` is list append with right-biased lookup
  (`jsGet` scans from the right, so later spreads win).
-/

namespace WontumPlayer

/-- A JavaScript value as stored in analytics payload objects. -/
inductive JsValue where
  | num (q : ℚ)
  | str (s : String)
  | jsBool (b : Bool)
  | jsNull
  deriving DecidableEq, Repr

/-- A JavaScript object: an ordered list of key/value bindings. -/
abbrev JsObject : Type := List (String × JsValue)

/-- Object property lookup; the binding written last wins, matching the
semantics of object spread where later spreads override earlier keys. -/
def jsGet (o : JsObject) (k : String) : Option JsValue :=
  (o.reverse.find? (fun p => p.1 = k)).map (fun p => p.2)

/-- Spread of two objects: `\x7b...a, ...b\x7d`. -/
def jsSpread (a b : JsObject) : JsObject := a ++ b

/-- JavaScript truthiness of a nullable number: `null` and `0` are falsy. -/
def truthyNum : Option ℕ → Bool
  | none => false
  | some n => n ≠ 0

/-- JavaScript `x || d` for a nullable number (`0` falls back to the default),
as in `wsConfig.reconnectDelay || 3000`. -/
def jsOrNum (v : Option ℕ) (d : ℕ) : ℕ :=
  match v with
  | none => d
  | some n => if n = 0 then d else n

/-- JavaScript `x || d` for a nullable string (empty string is falsy),
as in `config?.sessionId || this.generateSessionId()`. -/
def jsOrStr (v : Option String) (d : String) : String :=
  match v with
  | none => d
  | some x => if x = "" then d else x

/-- `Math.round` on an exact rational: round half toward positive infinity. -/
def jsMathRound (q : ℚ) : ℤ := ⌊q + 1/2⌋

/-- Configuration of the native-WebSocket sink (`WebSocketAnalyticsHandler`):
the fields the reconnection logic reads. -/
structure WebSocketAnalyticsHandlerCfg where
  autoReconnect : Option Bool
  reconnectDelay : Option ℕ
  deriving DecidableEq, Repr

/-- `AnalyticsConfig` (from `types.ts`): the data fields read by the facade. -/
structure AnalyticsConfig where
  enabled : Option Bool
  endpoint : Option String
  sessionId : Option String
  userId : Option String
  videoId : Option String
  webSocket : Option WebSocketAnalyticsHandlerCfg
  deriving DecidableEq, Repr

/-- `this.config?.enabled` as a boolean (undefined config or flag is falsy). -/
def jsEnabled : Option AnalyticsConfig → Bool
  | none => false
  | some cfg => cfg.enabled.getD false

/-- A native WebSocket handle: only `readyState` is inspected by the facade. -/
structure WsHandle where
  readyState : ℕ
  deriving DecidableEq, Repr

/-- `WebSocket.OPEN`. -/
def wsOPEN : ℕ := 1

/-- A Socket.IO handle: only `connected` is inspected by the facade. -/
structure SioHandle where
  connected : Bool
  deriving DecidableEq, Repr

/-- `AnalyticsEvent` (from `types.ts`): one telemetry record. -/
structure AnalyticsEvent where
  eventType : String
  timestamp : ℕ
  sessionId : String
  videoId : Option String
  userId : Option String
  data : JsObject
  deriving DecidableEq, Repr

/-- The mutable fields of the `Analytics` class. -/
structure AnalyticsState where
  config : Option AnalyticsConfig
  sessionId : String
  events : List AnalyticsEvent
  sessionStartTime : ℕ
  playbackStartTime : Option ℕ
  totalPlayTime : ℤ
  totalBufferTime : ℤ
  bufferStartTime : Option ℕ
  rebufferCount : ℕ
  seekCount : ℕ
  webSocket : Option WsHandle
  socketIOClient : Option SioHandle
  wsReconnectTimeout : Option ℕ
  isDestroyed : Bool
  deriving DecidableEq, Repr

/-- `Analytics.updateMetrics(eventType, data)`: folds one lifecycle
notification into the QoE counters at clock value `now`. -/
def updateMetrics (now : ℕ) (eventType : String) (s : AnalyticsState) : AnalyticsState :=
  if eventType = "play" then
    { s with playbackStartTime := some now }
  else if eventType = "pause" ∨ eventType = "ended" then
    if truthyNum s.playbackStartTime then
      { s with
        totalPlayTime := s.totalPlayTime + ((now : ℤ) - (s.playbackStartTime.getD 0 : ℤ)),
        playbackStartTime := none }
    else s
  else if eventType = "buffering_start" then
    { s with bufferStartTime := some now, rebufferCount := s.rebufferCount + 1 }
  else if eventType = "buffering_end" then
    if truthyNum s.bufferStartTime then
      { s with
        totalBufferTime := s.totalBufferTime + ((now : ℤ) - (s.bufferStartTime.getD 0 : ℤ)),
        bufferStartTime := none }
    else s
  else if eventType = "seeked" then
    { s with seekCount := s.seekCount + 1 }
  else s

/-- The raw buffering ratio: `totalPlayTime > 0 ? totalBufferTime / totalPlayTime : 0`. -/
def bufferingRatioRaw (s : AnalyticsState) : ℚ :=
  if 0 < s.totalPlayTime then (s.totalBufferTime : ℚ) / (s.totalPlayTime : ℚ) else 0

/-- `Math.round(bufferingRatio * 1000) / 1000`. -/
def bufferingRatioRounded (s : AnalyticsState) : ℚ :=
  (jsMathRound (bufferingRatioRaw s * 1000) : ℚ) / 1000

/-- `Analytics.getQoEMetrics()`: the derived-metrics snapshot object. -/
def getQoEMetrics (now : ℕ) (s : AnalyticsState) : JsObject :=
  [ ("sessionDuration", JsValue.num ((now : ℚ) - (s.sessionStartTime : ℚ))),
    ("totalPlayTime", JsValue.num (s.totalPlayTime : ℚ)),
    ("totalBufferTime", JsValue.num (s.totalBufferTime : ℚ)),
    ("bufferingRatio", JsValue.num (bufferingRatioRounded s)),
    ("rebufferCount", JsValue.num (s.rebufferCount : ℚ)),
    ("seekCount", JsValue.num (s.seekCount : ℚ)) ]

/-- One delivery attempt fanned out by `trackEvent`. -/
inductive SinkAttempt where
  | wsSend (e : AnalyticsEvent)
  | sioEmit (e : AnalyticsEvent)
  | httpPost (endpoint : String) (e : AnalyticsEvent)
  deriving DecidableEq, Repr

/-- True for the WebSocket-sink delivery attempt. -/
def SinkAttempt.isWsSend : SinkAttempt → Bool
  | .wsSend _ => true
  | _ => false

/-- True for the Socket.IO-sink delivery attempt. -/
def SinkAttempt.isSioEmit : SinkAttempt → Bool
  | .sioEmit _ => true
  | _ => false

/-- The `const event = \x7b ... \x7d` record literal inside `trackEvent`:
caller payload spread first, derived-metrics snapshot spread second. -/
def buildRecord (now : ℕ) (eventType : String) (data : JsObject) (s : AnalyticsState) :
    AnalyticsEvent :=
  { eventType := eventType
    timestamp := now
    sessionId := s.sessionId
    videoId := (s.config.map AnalyticsConfig.videoId).join
    userId := (s.config.map AnalyticsConfig.userId).join
    data := jsSpread data (getQoEMetrics now s) }

/-- `Analytics.trackEvent(eventType, data)`: build the record from the
pre-fold metrics snapshot, append it, fold the notification, then fan out to
whichever sinks are live.  Returns the new state and the delivery attempts. -/
def trackEvent (now : ℕ) (eventType : String) (data : JsObject) (s : AnalyticsState) :
    AnalyticsState × List SinkAttempt :=
  if ¬ jsEnabled s.config then (s, [])
  else
    let event : AnalyticsEvent := buildRecord now eventType data s
    let s1 := { s with events := s.events ++ [event] }
    let s2 := updateMetrics now eventType s1
    let wsAtt : List SinkAttempt :=
      match s.webSocket with
      | some w => if w.readyState = wsOPEN then [SinkAttempt.wsSend event] else []
      | none => []
    let sioAtt : List SinkAttempt :=
      match s.socketIOClient with
      | some sk => if sk.connected then [SinkAttempt.sioEmit event] else []
      | none => []
    let httpAtt : List SinkAttempt :=
      match s.config with
      | some cfg =>
        match cfg.endpoint with
        | some ep => [SinkAttempt.httpPost ep event]
        | none => []
      | none => []
    (s2, wsAtt ++ sioAtt ++ httpAtt)

/-- `Analytics.getEvents()` returns `[...this.events]`; as a pure value this
is the list of stored records (the aliasing aspect is modelled separately
with an explicit store). -/
def getEvents (s : AnalyticsState) : List AnalyticsEvent :=
  s.events

/-- `Analytics.getMetrics()`. -/
def getMetrics (now : ℕ) (s : AnalyticsState) : JsObject :=
  [("sessionId", JsValue.str s.sessionId)]
    ++ getQoEMetrics now s
    ++ [("eventCount", JsValue.num (s.events.length : ℚ))]

/-- `Analytics.destroy()`: set the destroyed flag, emit the synthetic
`session_end` record when enabled, cancel the reconnect timer, drop the
socket handles, and finally clear the stored events. -/
def destroy (now : ℕ) (sessionData : JsObject) (s : AnalyticsState) :
    AnalyticsState × List SinkAttempt :=
  let s0 := { s with isDestroyed := true }
  let pr :=
    if jsEnabled s0.config then trackEvent now "session_end" sessionData s0 else (s0, [])
  ({ pr.1 with
      wsReconnectTimeout := none
      webSocket := none
      socketIOClient := none
      events := [] }, pr.2)

/-- The field initializers of the `Analytics` constructor, before the
optional socket setup and `session_start` emission. -/
def initialState (config : Option AnalyticsConfig) (sessionId : String) (now : ℕ) :
    AnalyticsState :=
  { config := config
    sessionId := sessionId
    events := []
    sessionStartTime := now
    playbackStartTime := none
    totalPlayTime := 0
    totalBufferTime := 0
    bufferStartTime := none
    rebufferCount := 0
    seekCount := 0
    webSocket := none
    socketIOClient := none
    wsReconnectTimeout := none
    isDestroyed := false }

/-- The `Analytics` constructor: record config, session id and start time;
adopt the externally created socket handles; then, when enabled, emit the
synthetic `session_start` record. -/
def mkAnalytics (config : Option AnalyticsConfig) (now : ℕ) (genId : String)
    (initialWebSocket : Option WsHandle) (initialSioHandle : Option SioHandle)
    (sessionData : JsObject) : AnalyticsState × List SinkAttempt :=
  let hasWs : Bool := (config.map AnalyticsConfig.webSocket).join.isSome
  let s0 : AnalyticsState :=
    { initialState config (jsOrStr (config.map AnalyticsConfig.sessionId).join genId) now with
      webSocket := if hasWs then initialWebSocket else none
      socketIOClient := if hasWs then initialSioHandle else none }
  if jsEnabled config then trackEvent now "session_start" sessionData s0 else (s0, [])

/-- Fold a list of `(eventType, timestamp)` notifications through the
accumulator (`updateMetrics`), in order. -/
def foldNotifications (s : AnalyticsState) : List (String × ℕ) → AnalyticsState
  | [] => s
  | (ev, t) :: rest => foldNotifications (updateMetrics t ev s) rest

/-! ### Reference store

JavaScript arrays and objects are mutable references.  To state aliasing
properties (`getEvents` returns `[...this.events]`, a fresh array; object
spread builds a fresh object) we use an explicit store of cells addressed by
natural-number handles. -/

/-- A store of mutable cells holding values of type `α`. -/
structure Store (α : Type) where
  cells : List α

/-- Allocate a fresh cell; returns the new store and the fresh handle. -/
def Store.alloc {α : Type} (h : Store α) (v : α) : Store α × ℕ :=
  ({ cells := h.cells ++ [v] }, h.cells.length)

/-- Read a cell. -/
def Store.read {α : Type} (h : Store α) (r : ℕ) : Option α :=
  h.cells[r]?

/-- Overwrite a cell in place (a mutation through the reference). -/
def Store.write {α : Type} (h : Store α) (r : ℕ) (v : α) : Store α :=
  { cells := h.cells.set r v }

/-- `Analytics.getEvents()` at the reference level: `return [...this.events]`
allocates a fresh array holding a copy of the contents of the internal
`events` reference. -/
def getEventsCopy (h : Store (List AnalyticsEvent)) (eventsRef : ℕ) :
    Store (List AnalyticsEvent) × ℕ :=
  h.alloc ((h.read eventsRef).getD [])

/-- Object spread `\x7b...a, ...b\x7d` at the reference level: reads both
operands and allocates a fresh object; neither operand cell is written. -/
def objectSpreadAlloc (h : Store JsObject) (aRef bRef : ℕ) : Store JsObject × ℕ :=
  h.alloc (jsSpread ((h.read aRef).getD []) ((h.read bRef).getD []))

/-! ### WebSocket reconnection supervisor

The `onclose` handler of `initializeWebSocket`, the `setTimeout` it arms, and
the `clearTimeout` in `destroy`, modelled as a step relation driven by the
single-threaded event loop.  `wsReconnectTimeout` holds the absolute due time
of the pending timer (the tracked handle); a `timerFire` step only has an
effect when a timer with that due time is still pending, which is exactly the
runtime guarantee of `clearTimeout`. -/

/-- Supervisor state: the destroyed flag, the tracked pending-timer handle,
and the count of reconnect attempts (`initializeWebSocket` invocations from
the timer callback). -/
structure WSSupervisorState where
  isDestroyed : Bool
  wsReconnectTimeout : Option ℕ
  connectAttempts : ℕ
  deriving DecidableEq, Repr

/-- Event-loop occurrences relevant to the supervisor. -/
inductive WSEvent where
  | channelClose (t : ℕ)
  | timerFire (t : ℕ)
  | destroyCall
  deriving DecidableEq, Repr

/-- One event-loop step.  `channelClose` runs the `onclose` handler:
`autoReconnect !== false` (default true) and not destroyed arms one timer at
`t + (reconnectDelay || 3000)`.  `timerFire` runs a due pending timer: it
clears the handle and performs one reconnect attempt.  `destroyCall` runs the
teardown in `destroy()`: sets the flag and cancels any pending timer. -/
def wsStep (cfg : WebSocketAnalyticsHandlerCfg) : WSSupervisorState → WSEvent → WSSupervisorState
  | s, WSEvent.channelClose t =>
    if cfg.autoReconnect ≠ some false ∧ s.isDestroyed = false then
      { s with wsReconnectTimeout := some (t + jsOrNum cfg.reconnectDelay 3000) }
    else s
  | s, WSEvent.timerFire t =>
    match s.wsReconnectTimeout with
    | some due =>
      if due = t then
        { s with wsReconnectTimeout := none, connectAttempts := s.connectAttempts + 1 }
      else s
    | none => s
  | s, WSEvent.destroyCall =>
    { s with isDestroyed := true, wsReconnectTimeout := none }

/-- Run the supervisor over a list of event-loop occurrences. -/
def wsRun (cfg : WebSocketAnalyticsHandlerCfg) (s : WSSupervisorState)
    (evs : List WSEvent) : WSSupervisorState :=
  evs.foldl (wsStep cfg) s

/-! ### Sink delivery with failures

Exceptions are `Except String`; the catch-all `try/catch` blocks are
`jsTryCatch`, which never re-throws. -/

/-- A `try \x7b body \x7d catch (e) \x7b handler \x7d` expression whose
handler does not re-throw: the result is always a normal return. -/
def jsTryCatch {α : Type} (body : Except String α) (handler : String → α) :
    Except String α :=
  match body with
  | Except.ok a => Except.ok a
  | Except.error e => Except.ok (handler e)

/-- Outcome of the `fetch` promise awaited in `sendEvent`: it resolves with a
status code for every HTTP response (2xx or not) and rejects only on a
network error. -/
inductive FetchOutcome where
  | resolved (status : ℕ)
  | rejected (message : String)
  deriving DecidableEq, Repr

/-- Observable result of one `sendEvent` call: how many POSTs were issued and
what was logged. -/
structure HttpDeliveryResult where
  postAttempts : ℕ
  logs : List String
  deriving DecidableEq, Repr

/-- `Analytics.sendEvent(event)`: if an endpoint is configured, issue exactly
one POST (`await fetch`), catching a rejection and logging it; the response
status is never inspected.  The single `fetch` call is the one POST attempt,
counted in both the resolve and the reject branch. -/
def sendEvent (endpoint : Option String) (outcome : FetchOutcome) :
    Except String HttpDeliveryResult :=
  match endpoint with
  | none => Except.ok { postAttempts := 0, logs := [] }
  | some _ =>
    jsTryCatch
      (match outcome with
       | FetchOutcome.resolved _status => Except.ok { postAttempts := 1, logs := [] }
       | FetchOutcome.rejected msg => Except.error msg)
      (fun msg => { postAttempts := 1, logs := ["Failed to send analytics event: " ++ msg] })

/-- Payload of one WebSocket frame: the record itself when no transform is
configured, or the transform result. -/
inductive WsPayload where
  | rawEvent (e : AnalyticsEvent)
  | transformed (v : JsValue)
  deriving DecidableEq, Repr

/-- `Analytics.sendToWebSocket(event)`: drop silently unless the socket is
`OPEN`; otherwise run the (possibly throwing) caller-supplied transform and
the send inside one `try/catch`, logging a caught error.  Returns the frame
sent, if any, and the log lines. -/
def sendToWebSocket (ws : Option WsHandle)
    (transform : Option (AnalyticsEvent → Except String JsValue))
    (event : AnalyticsEvent) : Except String (Option WsPayload × List String) :=
  match ws with
  | none => Except.ok (none, [])
  | some w =>
    if w.readyState ≠ wsOPEN then Except.ok (none, [])
    else
      jsTryCatch
        (match transform with
         | some f =>
           match f event with
           | Except.ok v => Except.ok (some (WsPayload.transformed v), [])
           | Except.error e => Except.error e
         | none => Except.ok (some (WsPayload.rawEvent event), []))
        (fun e => (none, ["[Analytics WebSocket] Failed to send event: " ++ e]))

/-- Whether an `Except` computation returned normally. -/
def exceptOk {α : Type} : Except String α → Bool
  | Except.ok _ => true
  | Except.error _ => false

/-- The POST-attempt count of a `sendEvent` result (0 if it threw). -/
def httpAttemptsOf : Except String HttpDeliveryResult → ℕ
  | Except.ok r => r.postAttempts
  | Except.error _ => 0

/-- The log lines of a `sendEvent` result. -/
def httpLogsOf : Except String HttpDeliveryResult → List String
  | Except.ok r => r.logs
  | Except.error _ => []

/-- The keys of the derived-metrics snapshot produced by `getQoEMetrics`. -/
def qoeKeys : List String :=
  ["sessionDuration", "totalPlayTime", "totalBufferTime", "bufferingRatio",
   "rebufferCount", "seekCount"]

/-- Boolean check that the notification timestamps are non-decreasing,
starting from a base clock value (the session start). -/
def timesChainB : ℕ → List (String × ℕ) → Bool
  | _, [] => true
  | t, (_, u) :: rest => decide (t ≤ u) && timesChainB u rest

/-- Invariant carried along a time-monotone fold: open markers are no later
than the clock, and both accumulated durations are non-negative. -/
def MarkerBound (s : AnalyticsState) (t : ℕ) : Prop :=
  (∀ u, s.playbackStartTime = some u → u ≤ t)
  ∧ (∀ u, s.bufferStartTime = some u → u ≤ t)
  ∧ 0 ≤ s.totalPlayTime ∧ 0 ≤ s.totalBufferTime

/-! ### Concrete inputs used by counterexamples and witnesses -/

/-- An enabled configuration with an HTTP endpoint and no socket sink. -/
def cfgEx : AnalyticsConfig :=
  { enabled := some true
    endpoint := some "https://collector.example/events"
    sessionId := some "sid"
    userId := none
    videoId := none
    webSocket := none }

/-- A freshly constructed enabled instance (before any tracked event). -/
def stEx : AnalyticsState := initialState (some cfgEx) "sid" 0

/-- The state of `stEx` right after `destroy()` has returned. -/
def stExDestroyed : AnalyticsState := (destroy 10 [] stEx).1

/-- Trace used by the C5 witness: play, one closed buffering interval, pause. -/
def trW : List (String × ℕ) :=
  [("play", 1), ("buffering_start", 2), ("buffering_end", 4), ("pause", 5)]

/-- WebSocket sink configuration with both reconnect options left unset. -/
def cfgW : WebSocketAnalyticsHandlerCfg := { autoReconnect := none, reconnectDelay := none }

/-- A fresh reconnection-supervisor state. -/
def s0W : WSSupervisorState :=
  { isDestroyed := false, wsReconnectTimeout := none, connectAttempts := 0 }

/-- A supervisor state with a pending timer and some past attempts. -/
def sAnyW : WSSupervisorState :=
  { isDestroyed := false, wsReconnectTimeout := some 500, connectAttempts := 3 }

/-- Event-loop occurrences fired after a destroy in the C6 witness. -/
def evsW : List WSEvent :=
  [WSEvent.timerFire 500, WSEvent.channelClose 9, WSEvent.timerFire 3009]

/-- A record on which the witness transform throws. -/
def evBoom : AnalyticsEvent :=
  { eventType := "boom", timestamp := 1, sessionId := "sid",
    videoId := none, userId := none, data := [] }

/-- A record on which the witness transform succeeds. -/
def evPlay : AnalyticsEvent :=
  { eventType := "play", timestamp := 2, sessionId := "sid",
    videoId := none, userId := none, data := [] }

/-- A caller-supplied transform that throws on `boom` records. -/
def tfW : AnalyticsEvent → Except String JsValue :=
  fun e => if e.eventType = "boom" then Except.error "kaput"
           else Except.ok (JsValue.str e.eventType)

/-- A one-cell store holding the internal events array. -/
def stStore : Store (List AnalyticsEvent) := { cells := [[]] }

/-- A two-cell store holding a caller data object and a metrics object. -/
def objStore : Store JsObject := { cells := [[("a", JsValue.jsNull)], []] }

/-! ### Helper lemmas about the accumulator -/

theorem updateMetrics_rebufferCount (now : ℕ) (ev : String) (s : AnalyticsState) :
    (updateMetrics now ev s).rebufferCount
      = s.rebufferCount + (if ev = "buffering_start" then 1 else 0) := by
  unfold updateMetrics
  split_ifs <;> simp_all

theorem updateMetrics_seekCount_seeked (now : ℕ) (s : AnalyticsState) :
    (updateMetrics now "seeked" s).seekCount = s.seekCount + 1 := by
  unfold updateMetrics
  split_ifs <;> simp_all

theorem updateMetrics_playFields (now : ℕ) (ev : String) (s : AnalyticsState)
    (h1 : ev ≠ "play") (h2 : ev ≠ "pause") (h3 : ev ≠ "ended") :
    (updateMetrics now ev s).playbackStartTime = s.playbackStartTime
    ∧ (updateMetrics now ev s).totalPlayTime = s.totalPlayTime := by
  unfold updateMetrics
  split_ifs <;> simp_all

theorem foldNotifications_rebufferCount (tr : List (String × ℕ)) :
    ∀ s : AnalyticsState,
      (foldNotifications s tr).rebufferCount
        = s.rebufferCount + tr.countP (fun p => p.1 = "buffering_start") := by
  induction tr with
  | nil => intro s; simp [foldNotifications]
  | cons hd tl ih =>
    intro s
    obtain ⟨ev, t⟩ := hd
    simp only [foldNotifications, ih, updateMetrics_rebufferCount, List.countP_cons]
    by_cases hev : ev = "buffering_start"
    · simp [hev]
      omega
    · simp [hev]

theorem foldNotifications_playFields (tr : List (String × ℕ))
    (htr : ∀ p ∈ tr, p.1 ≠ "play" ∧ p.1 ≠ "pause" ∧ p.1 ≠ "ended") :
    ∀ s : AnalyticsState,
      (foldNotifications s tr).playbackStartTime = s.playbackStartTime
      ∧ (foldNotifications s tr).totalPlayTime = s.totalPlayTime := by
  induction tr with
  | nil => intro s; simp [foldNotifications]
  | cons hd tl ih =>
    intro s
    obtain ⟨ev, t⟩ := hd
    have hhd := htr (ev, t) (List.mem_cons_self _ _)
    have ihx := ih (fun p hp => htr p (List.mem_cons_of_mem _ hp)) (updateMetrics t ev s)
    have hu := updateMetrics_playFields t ev s hhd.1 hhd.2.1 hhd.2.2
    simp only [foldNotifications]
    exact ⟨ihx.1.trans hu.1, ihx.2.trans hu.2⟩

theorem updateMetrics_play_playbackStartTime (t : ℕ) (s : AnalyticsState) :
    (updateMetrics t "play" s).playbackStartTime = some t := by
  unfold updateMetrics; simp

theorem updateMetrics_play_totalPlayTime (t : ℕ) (s : AnalyticsState) :
    (updateMetrics t "play" s).totalPlayTime = s.totalPlayTime := by
  unfold updateMetrics; simp

theorem updateMetrics_close_totalPlayTime (now : ℕ) (ev : String)
    (hev : ev = "pause" ∨ ev = "ended") (s : AnalyticsState) (u : ℕ)
    (hs : s.playbackStartTime = some u) (hu : u ≠ 0) :
    (updateMetrics now ev s).totalPlayTime = s.totalPlayTime + ((now : ℤ) - (u : ℤ)) := by
  rcases hev with h | h <;> (subst h; unfold updateMetrics; simp [hs, hu, truthyNum])

theorem updateMetrics_close_noMarker (now : ℕ) (ev : String)
    (hev : ev = "pause" ∨ ev = "ended") (s : AnalyticsState)
    (hs : s.playbackStartTime = none) :
    updateMetrics now ev s = s := by
  rcases hev with h | h <;> (subst h; unfold updateMetrics; simp [hs, truthyNum])

theorem updateMetrics_markerBound (t now : ℕ) (ev : String) (s : AnalyticsState)
    (h : MarkerBound s t) (htn : t ≤ now) :
    MarkerBound (updateMetrics now ev s) now := by
  obtain ⟨hp, hb, h1, h2⟩ := h
  unfold MarkerBound updateMetrics
  split_ifs <;> refine ⟨?_, ?_, ?_, ?_⟩ <;> simp_all [truthyNum] <;> first
    | (intro u hu; exact le_trans (hp u hu) htn)
    | (intro u hu; exact le_trans (hb u hu) htn)
    | (rcases hsp : s.playbackStartTime with _ | p
       · simp_all
       · have := hp p hsp; simp_all; omega)
    | (rcases hsb : s.bufferStartTime with _ | b
       · simp_all
       · have := hb b hsb; simp_all; omega)

theorem foldNotifications_markerBound :
    ∀ (tr : List (String × ℕ)) (s : AnalyticsState) (t : ℕ),
      MarkerBound s t → timesChainB t tr = true →
      0 ≤ (foldNotifications s tr).totalPlayTime
      ∧ 0 ≤ (foldNotifications s tr).totalBufferTime
  | [], _s, _t, h, _ => ⟨h.2.2.1, h.2.2.2⟩
  | (ev, u) :: rest, s, t, h, hc => by
    rw [timesChainB, Bool.and_eq_true, decide_eq_true_eq] at hc
    simp only [foldNotifications]
    exact foldNotifications_markerBound rest (updateMetrics u ev s) u
      (updateMetrics_markerBound t u ev s h hc.1) hc.2

theorem jsMathRound_zero : jsMathRound 0 = 0 := by
  unfold jsMathRound
  rw [Int.floor_eq_iff]
  norm_num

/-! ### Helper lemmas about records, lookup and the facade -/

theorem find?_append_of_first {α : Type} (p : α → Bool) :
    ∀ (x y : List α), (x.find? p).isSome → (x ++ y).find? p = x.find? p
  | [], _, h => by simp at h
  | a :: x, y, h => by
    by_cases hpa : p a
    · simp [List.find?_cons_of_pos, hpa]
    · simp only [List.cons_append, List.find?_cons_of_neg _ hpa] at h ⊢
      exact find?_append_of_first p x y h

theorem jsGet_spread_right (a b : JsObject) (k : String)
    (hb : (jsGet b k).isSome) : jsGet (jsSpread a b) k = jsGet b k := by
  unfold jsGet jsSpread at *
  rw [List.reverse_append]
  rw [find?_append_of_first]
  simpa using hb

theorem updateMetrics_events (now : ℕ) (ev : String) (s : AnalyticsState) :
    (updateMetrics now ev s).events = s.events := by
  unfold updateMetrics
  split_ifs <;> rfl

theorem updateMetrics_config (now : ℕ) (ev : String) (s : AnalyticsState) :
    (updateMetrics now ev s).config = s.config := by
  unfold updateMetrics
  split_ifs <;> rfl

theorem updateMetrics_setEvents (now : ℕ) (ev : String) (s : AnalyticsState)
    (E : List AnalyticsEvent) :
    updateMetrics now ev { s with events := E }
      = { updateMetrics now ev s with events := E } := by
  unfold updateMetrics
  split_ifs <;> rfl

theorem trackEvent_state_enabled (now : ℕ) (ev : String) (data : JsObject)
    (s : AnalyticsState) (he : jsEnabled s.config = true) :
    (trackEvent now ev data s).1 =
      { updateMetrics now ev s with events := s.events ++ [buildRecord now ev data s] } := by
  unfold trackEvent
  rw [if_neg (by simp [he])]
  exact updateMetrics_setEvents now ev s _

theorem jsGet_qoe_isSome (now : ℕ) (s : AnalyticsState) (k : String)
    (hk : k ∈ qoeKeys) : (jsGet (getQoEMetrics now s) k).isSome = true := by
  fin_cases hk <;> simp [getQoEMetrics, jsGet]

theorem trackEvent_config (now : ℕ) (ev : String) (data : JsObject) (s : AnalyticsState) :
    (trackEvent now ev data s).1.config = s.config := by
  unfold trackEvent
  split_ifs <;> first
    | rfl
    | (show (updateMetrics now ev
          { s with events := s.events ++ [buildRecord now ev data s] }).config = s.config
       rw [updateMetrics_config])

theorem destroy_config (now : ℕ) (sd : JsObject) (s : AnalyticsState) :
    (destroy now sd s).1.config = s.config := by
  unfold destroy
  simp only
  split_ifs
  · rw [trackEvent_config]
  · rfl

/-! ### Helper lemmas about the reconnection supervisor -/

theorem wsRun_destroyed (cfg : WebSocketAnalyticsHandlerCfg) :
    ∀ (evs : List WSEvent) (s : WSSupervisorState),
      s.isDestroyed = true → s.wsReconnectTimeout = none →
      (wsRun cfg s evs).connectAttempts = s.connectAttempts
      ∧ (wsRun cfg s evs).isDestroyed = true
      ∧ (wsRun cfg s evs).wsReconnectTimeout = none
  | [], _s, h1, h2 => ⟨rfl, h1, h2⟩
  | e :: rest, s, h1, h2 => by
    have hnext : (wsStep cfg s e).isDestroyed = true
        ∧ (wsStep cfg s e).wsReconnectTimeout = none
        ∧ (wsStep cfg s e).connectAttempts = s.connectAttempts := by
      cases e with
      | channelClose t => simp [wsStep, h1, h2]
      | timerFire t => simp [wsStep, h1, h2]
      | destroyCall => simp [wsStep]
    have ih := wsRun_destroyed cfg rest (wsStep cfg  s e) hnext.1 hnext.2.1
    simp only [wsRun, List.foldl_cons] at ih ⊢
    exact ⟨ih.1.trans hnext.2.2, ih.2.1, ih.2.2⟩

/-! ### Claim C1 -/

/-- Claim C1 is refuted on the code: `trackEvent` never consults the
`isDestroyed` flag, and `destroy()` leaves `config.enabled` set, so on the
destroyed instance `stExDestroyed` a further `trackEvent` call appends one
new record to the internal sequence and fans out one delivery attempt (the
HTTP POST to the configured endpoint), contradicting the claimed no-op. -/
theorem c1_counterexample :
    stExDestroyed.isDestroyed = true
    ∧ stExDestroyed.events = []
    ∧ (trackEvent 20 "play" [] stExDestroyed).1.events.length = 1
    ∧ ((trackEvent 20 "play" [] stExDestroyed).2).length = 1 :=
  ⟨rfl, rfl, rfl, rfl⟩

/-- Claim C1 as amended: after `destroy()`, further `track()` calls still
never throw (the embedding is a total function) and trigger no WebSocket or
Socket.IO delivery attempt, because `destroy()` nulls both handles — but
while the config stays enabled each call appends one new record to the
stored sequence (and may still attempt an endpoint POST, as the
counterexample shows). -/
theorem c1_track_after_destroy (s : AnalyticsState) (n now : ℕ)
    (sd data : JsObject) (ev : String) (he : jsEnabled s.config = true) :
    ((trackEvent now ev data (destroy n sd s).1).2.filter
        (fun a => a.isWsSend || a.isSioEmit)) = []
    ∧ (trackEvent now ev data (destroy n sd s).1).1.events.length = 1 := by
  have hdw : (destroy n sd s).1.webSocket = none := rfl
  have hdio : (destroy n sd s).1.socketIOClient = none := rfl
  have hdev : (destroy n sd s).1.events = [] := rfl
  have hdc : (destroy n sd s).1.config = s.config := destroy_config n sd s
  unfold trackEvent
  rw [hdc, hdw, hdio, hdev]
  rw [if_neg (by simp [he])]
  rcases hc : s.config with _ | cfg
  · rw [hc] at he; simp [jsEnabled] at he
  · cases hce : cfg.endpoint <;>
      simp [SinkAttempt.isWsSend, SinkAttempt.isSioEmit, hce, hc, updateMetrics_events]

/-- Witness for C1: the amended statement at the concrete destroyed
instance. -/
theorem c1_track_after_destroy_witness :
    ((trackEvent 20 "play" [] (destroy 10 [] stEx).1).2.filter
        (fun a => a.isWsSend || a.isSioEmit)) = []
    ∧ (trackEvent 20 "play" [] (destroy 10 [] stEx).1).1.events.length = 1 :=
  c1_track_after_destroy stEx 10 20 [] [] "play" rfl

/-! ### Claim C2 -/

/-- Claim C2 is refuted on the code: `trackEvent` builds the record (with the
`getQoEMetrics` snapshot) and pushes it before calling `updateMetrics`, so on
a fresh enabled instance the record stored for a `seeked` event carries the
pre-increment `seekCount` 0, while the post-call state carries 1. -/
theorem c2_counterexample :
    ((trackEvent 5 "seeked" [] stEx).1.events.map (fun e => jsGet e.data "seekCount"))
      = [some (JsValue.num 0)]
    ∧ (trackEvent 5 "seeked" [] stEx).1.seekCount = 1 := by
  constructor
  · simp [trackEvent, stEx, cfgEx, initialState, jsEnabled, buildRecord, jsSpread,
      getQoEMetrics, jsGet, updateMetrics]
  · rfl

/-- Claim C2 as amended: on an enabled instance the record is built from the
metrics snapshot taken before the accumulator folds the notification — the
fold happens after the record is appended — so the record for a `seeked`
event carries the pre-increment `seekCount`, while the resulting state
carries the incremented one. -/
theorem c2_record_before_fold (now : ℕ) (ev : String) (data : JsObject)
    (s : AnalyticsState) (he : jsEnabled s.config = true) :
    (trackEvent now ev data s).1
      = { updateMetrics now ev s with events := s.events ++ [buildRecord now ev data s] }
    ∧ (buildRecord now ev data s).data = jsSpread data (getQoEMetrics now s)
    ∧ jsGet (buildRecord now "seeked" data s).data "seekCount"
        = some (JsValue.num (s.seekCount : ℚ))
    ∧ (updateMetrics now "seeked" s).seekCount = s.seekCount + 1 := by
  refine ⟨trackEvent_state_enabled now ev data s he, rfl, ?_,
    updateMetrics_seekCount_seeked now s⟩
  show jsGet (jsSpread data (getQoEMetrics now s)) "seekCount" = _
  rw [jsGet_spread_right data (getQoEMetrics now s) "seekCount"
      (jsGet_qoe_isSome now s "seekCount" (by simp [qoeKeys]))]
  simp [getQoEMetrics, jsGet]

/-- Witness for C2: the amended statement at the concrete fresh instance. -/
theorem c2_record_before_fold_witness :
    (trackEvent 7 "seeked" [] stEx).1
      = { updateMetrics 7 "seeked" stEx with
          events := stEx.events ++ [buildRecord 7 "seeked" [] stEx] }
    ∧ (buildRecord 7 "seeked" [] stEx).data = jsSpread [] (getQoEMetrics 7 stEx)
    ∧ jsGet (buildRecord 7 "seeked" [] stEx).data "seekCount"
        = some (JsValue.num (stEx.seekCount : ℚ))
    ∧ (updateMetrics 7 "seeked" stEx).seekCount = stEx.seekCount + 1 :=
  c2_record_before_fold 7 "seeked" [] stEx rfl

/-! ### Claim C3 -/

/-- Claim C3 confirmed: over any fold of notifications, `rebufferCount` grows
by exactly the number of `buffering_start` notifications, independent of
`buffering_end` matching; and in the scenario start(t1), end(t2), start(t3)
on a fresh accumulator, `rebufferCount` is 2 while `totalBufferTime` is only
the closed interval `t2 - t1`.  The hypothesis `0 < t1` reflects that
`Date.now()` is a positive clock value (the code tests the marker with
JavaScript truthiness, under which a 0 timestamp would read as absent). -/
theorem c3_rebuffer_counts_starts (s : AnalyticsState) (tr : List (String × ℕ))
    (t1 t2 t3 : ℕ) (h1 : 0 < t1) :
    (foldNotifications s tr).rebufferCount
      = s.rebufferCount + tr.countP (fun p => p.1 = "buffering_start")
    ∧ (foldNotifications (initialState none "sid" 0)
        [("buffering_start", t1), ("buffering_end", t2),
         ("buffering_start", t3)]).rebufferCount = 2
    ∧ (foldNotifications (initialState none "sid" 0)
        [("buffering_start", t1), ("buffering_end", t2),
         ("buffering_start", t3)]).totalBufferTime = (t2 : ℤ) - (t1 : ℤ) := by
  have ht1 : ¬ (t1 = 0) := by omega
  refine ⟨foldNotifications_rebufferCount tr s, ?_, ?_⟩ <;>
    simp [foldNotifications, updateMetrics, initialState, truthyNum, ht1]

/-- Witness for C3 at concrete inputs. -/
theorem c3_rebuffer_counts_starts_witness :
    (foldNotifications stEx [("buffering_start", 100)]).rebufferCount
      = stEx.rebufferCount
        + ([("buffering_start", 100)] : List (String × ℕ)).countP
            (fun p => p.1 = "buffering_start")
    ∧ (foldNotifications (initialState none "sid" 0)
        [("buffering_start", 100), ("buffering_end", 250),
         ("buffering_start", 400)]).rebufferCount = 2
    ∧ (foldNotifications (initialState none "sid" 0)
        [("buffering_start", 100), ("buffering_end", 250),
         ("buffering_start", 400)]).totalBufferTime = (250 : ℤ) - (100 : ℤ) :=
  c3_rebuffer_counts_starts stEx [("buffering_start", 100)] 100 250 400 (by decide)

/-! ### Claim C4 -/

/-- Claim C4 confirmed: a `play` at t1 followed — possibly after intervening
notifications that are none of play/pause/ended — by the next `pause` or
`ended` at t2 increases `totalPlayTime` by exactly `t2 - t1`; and a `pause`
or `ended` folded while no play marker is open leaves the state (hence
`totalPlayTime`) unchanged, and never throws since the fold is a total
function.  The hypothesis `0 < t1` reflects that `Date.now()` is positive
(the code tests the marker with JavaScript truthiness). -/
theorem c4_play_pause_interval (s s2 : AnalyticsState) (mid : List (String × ℕ))
    (t1 t2 : ℕ) (ev : String) (h1 : 0 < t1) (h12 : t1 < t2)
    (hev : ev = "pause" ∨ ev = "ended")
    (hmid : ∀ p ∈ mid, p.1 ≠ "play" ∧ p.1 ≠ "pause" ∧ p.1 ≠ "ended")
    (hs2 : s2.playbackStartTime = none) :
    (updateMetrics t2 ev (foldNotifications (updateMetrics t1 "play" s) mid)).totalPlayTime
      = s.totalPlayTime + ((t2 : ℤ) - (t1 : ℤ))
    ∧ updateMetrics t2 ev s2 = s2 := by
  have ht1 : ¬ (t1 = 0) := by omega
  have hfold := foldNotifications_playFields mid hmid (updateMetrics t1 "play" s)
  refine ⟨?_, updateMetrics_close_noMarker t2 ev hev s2 hs2⟩
  rw [updateMetrics_close_totalPlayTime t2 ev hev _ t1
      (hfold.1.trans (updateMetrics_play_playbackStartTime t1 s)) ht1,
    hfold.2, updateMetrics_play_totalPlayTime]

/-- Witness for C4 at concrete inputs (with an intervening `seeked`). -/
theorem c4_play_pause_interval_witness :
    (updateMetrics 10 "pause"
        (foldNotifications (updateMetrics 3 "play" stEx) [("seeked", 7)])).totalPlayTime
      = stEx.totalPlayTime + ((10 : ℤ) - (3 : ℤ))
    ∧ updateMetrics 10 "pause" stEx = stEx :=
  c4_play_pause_interval stEx stEx [("seeked", 7)] 3 10 "pause" (by decide) (by decide)
    (Or.inl rfl) (by decide) rfl

/-! ### Claim C5 -/

/-- Claim C5 confirmed: in every state reachable by folding a
timestamp-monotone notification trace from a fresh instance, the
`bufferingRatio` snapshot value equals `totalBufferTime / totalPlayTime`
rounded to 3 decimal places (`Math.round(x * 1000) / 1000`) when
`totalPlayTime` is positive, equals exactly 0 when `totalPlayTime` is 0
regardless of `totalBufferTime`, and is never negative; and it is this one
value that appears both in the record snapshot (`getQoEMetrics`) and in
`getMetrics()`.  Number arithmetic is modelled exactly over `ℚ`. -/
theorem c5_buffering_ratio_bounds (cfg : Option AnalyticsConfig) (sid : String)
    (t0 now : ℕ) (tr : List (String × ℕ)) (s : AnalyticsState)
    (hs : s = foldNotifications (initialState cfg sid t0) tr)
    (hchain : timesChainB t0 tr = true) :
    (0 < s.totalPlayTime →
      bufferingRatioRounded s
        = (jsMathRound ((s.totalBufferTime : ℚ) / (s.totalPlayTime : ℚ) * 1000) : ℚ) / 1000)
    ∧ (s.totalPlayTime = 0 → bufferingRatioRounded s = 0)
    ∧ 0 ≤ bufferingRatioRounded s
    ∧ jsGet (getQoEMetrics now s) "bufferingRatio"
        = some (JsValue.num (bufferingRatioRounded s))
    ∧ jsGet (getMetrics now s) "bufferingRatio"
        = some (JsValue.num (bufferingRatioRounded s)) := by
  have hnn : 0 ≤ s.totalPlayTime ∧ 0 ≤ s.totalBufferTime := by
    subst hs
    exact foldNotifications_markerBound tr (initialState cfg sid t0) t0
      (by refine ⟨?_, ?_, ?_, ?_⟩ <;> simp [initialState]) hchain
  refine ⟨?_, ?_, ?_, ?_, ?_⟩
  · intro h
    unfold bufferingRatioRounded bufferingRatioRaw
    simp [h]
  · intro h
    unfold bufferingRatioRounded bufferingRatioRaw
    simp [h, jsMathRound_zero]
  · by_cases h : 0 < s.totalPlayTime
    · unfold bufferingRatioRounded bufferingRatioRaw
      simp only [h, if_true]
      have hq1 : (0 : ℚ) ≤ (s.totalBufferTime : ℚ) := by exact_mod_cast hnn.2
      have hq2 : (0 : ℚ) < (s.totalPlayTime : ℚ) := by exact_mod_cast h
      have hraw : (0 : ℚ) ≤ (s.totalBufferTime : ℚ) / (s.totalPlayTime : ℚ) * 1000 := by
        positivity
      have hfl : 0 ≤ jsMathRound ((s.totalBufferTime : ℚ) / (s.totalPlayTime : ℚ) * 1000) := by
        unfold jsMathRound
        rw [Int.floor_nonneg]
        linarith
      have hq3 : (0 : ℚ) ≤
          (jsMathRound ((s.totalBufferTime : ℚ) / (s.totalPlayTime : ℚ) * 1000) : ℚ) := by
        exact_mod_cast hfl
      positivity
    · unfold bufferingRatioRounded bufferingRatioRaw
      simp [h, jsMathRound_zero]
  · simp [getQoEMetrics, jsGet]
  · simp [getMetrics, getQoEMetrics, jsGet]

/-- Witness for C5 on the concrete trace `trW` (play, one closed buffering
interval, pause). -/
theorem c5_buffering_ratio_bounds_witness :
    0 ≤ bufferingRatioRounded (foldNotifications (initialState none "sid" 0) trW)
    ∧ jsGet (getQoEMetrics 9 (foldNotifications (initialState none "sid" 0) trW))
        "bufferingRatio"
        = some (JsValue.num
            (bufferingRatioRounded (foldNotifications (initialState none "sid" 0) trW)))
    ∧ jsGet (getMetrics 9 (foldNotifications (initialState none "sid" 0) trW))
        "bufferingRatio"
        = some (JsValue.num
            (bufferingRatioRounded (foldNotifications (initialState none "sid" 0) trW))) :=
  ⟨(c5_buffering_ratio_bounds none "sid" 0 9 trW _ rfl (by decide)).2.2.1,
   (c5_buffering_ratio_bounds none "sid" 0 9 trW _ rfl (by decide)).2.2.2.1,
   (c5_buffering_ratio_bounds none "sid" 0 9 trW _ rfl (by decide)).2.2.2.2⟩

/-! ### Claim C6 -/

/-- Claim C6 confirmed, over the event-loop model of the `onclose` handler,
the armed `setTimeout` and the `clearTimeout` in `destroy()`: when the
channel closes with `autoReconnect` not explicitly false (so also when
unset, the default) and the sink not destroyed, exactly one reconnect timer
is armed at `close time + (reconnectDelay || 3000)` and its handle is
tracked in `wsReconnectTimeout`; firing it yields exactly one reconnect
attempt and clears the handle; `destroy()` cancels any pending timer
unconditionally; and from any destroyed state, no sequence of further
event-loop occurrences ever produces another reconnect attempt. -/
theorem c6_reconnect_supervisor (cfg : WebSocketAnalyticsHandlerCfg)
    (s0 sAny : WSSupervisorState) (evs : List WSEvent) (t : ℕ)
    (hAuto : cfg.autoReconnect ≠ some false)
    (h0 : s0 = { isDestroyed := false, wsReconnectTimeout := none, connectAttempts := 0 }) :
    (wsRun cfg s0 [WSEvent.channelClose t]).wsReconnectTimeout
        = some (t + jsOrNum cfg.reconnectDelay 3000)
    ∧ (wsRun cfg s0 [WSEvent.channelClose t,
        WSEvent.timerFire (t + jsOrNum cfg.reconnectDelay 3000)]).connectAttempts = 1
    ∧ (wsRun cfg s0 [WSEvent.channelClose t,
        WSEvent.timerFire (t + jsOrNum cfg.reconnectDelay 3000)]).wsReconnectTimeout = none
    ∧ jsOrNum none 3000 = 3000
    ∧ (wsStep cfg sAny WSEvent.destroyCall).wsReconnectTimeout = none
    ∧ (wsRun cfg (wsStep cfg sAny WSEvent.destroyCall) evs).connectAttempts
        = sAny.connectAttempts := by
  subst h0
  have hdes := wsRun_destroyed cfg evs (wsStep cfg sAny WSEvent.destroyCall)
    (by simp [wsStep]) (by simp [wsStep])
  refine ⟨?_, ?_, ?_, rfl, rfl, ?_⟩
  · simp [wsRun, wsStep, hAuto]
  · simp [wsRun, wsStep, hAuto]
  · simp [wsRun, wsStep, hAuto]
  · rw [hdes.1]; simp [wsStep]

/-- Witness for C6: defaults (`autoReconnect` and `reconnectDelay` unset), a
close at time 0, the timer firing at 3000, and a destroyed supervisor
surviving a pending-timer fire, a later close and a later fire. -/
theorem c6_reconnect_supervisor_witness :
    (wsRun cfgW s0W [WSEvent.channelClose 0]).wsReconnectTimeout
        = some (0 + jsOrNum cfgW.reconnectDelay 3000)
    ∧ (wsRun cfgW s0W [WSEvent.channelClose 0,
        WSEvent.timerFire (0 + jsOrNum cfgW.reconnectDelay 3000)]).connectAttempts = 1
    ∧ (wsRun cfgW s0W [WSEvent.channelClose 0,
        WSEvent.timerFire (0 + jsOrNum cfgW.reconnectDelay 3000)]).wsReconnectTimeout = none
    ∧ jsOrNum none 3000 = 3000
    ∧ (wsStep cfgW sAnyW WSEvent.destroyCall).wsReconnectTimeout = none
    ∧ (wsRun cfgW (wsStep cfgW sAnyW WSEvent.destroyCall) evsW).connectAttempts
        = sAnyW.connectAttempts :=
  c6_reconnect_supervisor cfgW s0W sAnyW evsW 0 (by decide) rfl

/-! ### Claim C7 -/

/-- Claim C7 is refuted on one conjunct: the code never inspects the response
status — `sendEvent` awaits `fetch` and catches only rejections — so a non-2xx
response (here a 500) produces no log line at all, contradicting the claim
that a non-2xx failure is logged.  It is still swallowed, not thrown, and
not retried. -/
theorem c7_counterexample :
    sendEvent (some "https://collector.example/events") (FetchOutcome.resolved 500)
      = Except.ok { postAttempts := 1, logs := [] } := rfl

/-- Claim C7 as amended: delivery failures never reach the `track()` caller.
For the request sink, `sendEvent` always returns normally with exactly one
POST attempt whatever the `fetch` outcome (so no retry), and logs a network
rejection (a non-2xx response is not detected, hence not logged, per the
counterexample).  For the WebSocket sink, a caller-supplied transform that
throws is caught per-record: the throwing record is dropped with a log line
while any other record with a succeeding transform is still delivered, and
`sendToWebSocket` always returns normally. -/
theorem c7_delivery_failures_contained (ep msg err : String) (outcome : FetchOutcome)
    (tf : AnalyticsEvent → Except String JsValue) (e1 e2 : AnalyticsEvent) (v : JsValue)
    (h1 : tf e1 = Except.error err) (h2 : tf e2 = Except.ok v) :
    exceptOk (sendEvent (some ep) outcome) = true
    ∧ httpAttemptsOf (sendEvent (some ep) outcome) = 1
    ∧ httpLogsOf (sendEvent (some ep) (FetchOutcome.rejected msg))
        = ["Failed to send analytics event: " ++ msg]
    ∧ sendToWebSocket (some { readyState := wsOPEN }) (some tf) e1
        = Except.ok (none, ["[Analytics WebSocket] Failed to send event: " ++ err])
    ∧ sendToWebSocket (some { readyState := wsOPEN }) (some tf) e2
        = Except.ok (some (WsPayload.transformed v), []) := by
  refine ⟨?_, ?_, rfl, ?_, ?_⟩
  · cases outcome <;> rfl
  · cases outcome <;> rfl
  · simp [sendToWebSocket, jsTryCatch, h1]
  · simp [sendToWebSocket, jsTryCatch, h2]

/-- Witness for C7: concrete endpoint, outcomes and a transform that throws
on one record but not the other. -/
theorem c7_delivery_failures_contained_witness :
    exceptOk (sendEvent (some "https://collector.example/events")
        (FetchOutcome.resolved 204)) = true
    ∧ httpAttemptsOf (sendEvent (some "https://collector.example/events")
        (FetchOutcome.resolved 204)) = 1
    ∧ httpLogsOf (sendEvent (some "https://collector.example/events")
        (FetchOutcome.rejected "netdown"))
        = ["Failed to send analytics event: " ++ "netdown"]
    ∧ sendToWebSocket (some { readyState := wsOPEN }) (some tfW) evBoom
        = Except.ok (none, ["[Analytics WebSocket] Failed to send event: " ++ "kaput"])
    ∧ sendToWebSocket (some { readyState := wsOPEN }) (some tfW) evPlay
        = Except.ok (some (WsPayload.transformed (JsValue.str "play")), []) :=
  c7_delivery_failures_contained "https://collector.example/events" "netdown" "kaput"
    (FetchOutcome.resolved 204) tfW evBoom evPlay (JsValue.str "play") rfl rfl

/-! ### Claim C8 -/

/-- Claim C8 confirmed, over the reference store: `getEvents` returns a
fresh handle distinct from the internal `events` reference, whose initial
contents equal the stored sequence; overwriting the returned handle leaves
the internal cell unchanged, and a subsequent `getEvents` still reads the
original contents. -/
theorem c8_getEvents_defensive_copy (h : Store (List AnalyticsEvent)) (r : ℕ)
    (v : List AnalyticsEvent) (hr : r < h.cells.length) :
    (getEventsCopy h r).2 ≠ r
    ∧ (getEventsCopy h r).1.read (getEventsCopy h r).2 = h.read r
    ∧ ((getEventsCopy h r).1.write (getEventsCopy h r).2 v).read r = h.read r
    ∧ (getEventsCopy (((getEventsCopy h r).1.write (getEventsCopy h r).2 v)) r).1.read
        (getEventsCopy (((getEventsCopy h r).1.write (getEventsCopy h r).2 v)) r).2
        = h.read r := by
  have hx : h.cells[r]? = some h.cells[r] := List.getElem?_eq_getElem hr
  have hcopy : (getEventsCopy h r).1.cells = h.cells ++ [h.cells[r]] := by
    simp [getEventsCopy, Store.alloc, Store.read, hx]
  have hhandle : (getEventsCopy h r).2 = h.cells.length := rfl
  have hwr : (((getEventsCopy h r).1.write (getEventsCopy h r).2 v)).read r = h.read r := by
    simp only [Store.write, Store.read, hcopy, hhandle]
    rw [List.getElem?_set_ne (by omega)]
    rw [List.getElem?_append_left (by omega)]
  refine ⟨by simp [hhandle]; omega, ?_, hwr, ?_⟩
  · simp only [Store.read, hcopy, hhandle]
    rw [List.getElem?_concat_length]
    exact hx.symm ▸ rfl
  · simp only [getEventsCopy, Store.alloc, Store.read] at *
    rw [List.getElem?_concat_length]
    rw [hwr]
    simp [Store.read, hx]

/-- Witness for C8 on a one-cell store, mutating the copy to `[evBoom]`. -/
theorem c8_getEvents_defensive_copy_witness :
    (getEventsCopy stStore 0).2 ≠ 0
    ∧ (getEventsCopy stStore 0).1.read (getEventsCopy stStore 0).2 = stStore.read 0
    ∧ ((getEventsCopy stStore 0).1.write (getEventsCopy stStore 0).2 [evBoom]).read 0
        = stStore.read 0
    ∧ (getEventsCopy (((getEventsCopy stStore 0).1.write
          (getEventsCopy stStore 0).2 [evBoom])) 0).1.read
        (getEventsCopy (((getEventsCopy stStore 0).1.write
          (getEventsCopy stStore 0).2 [evBoom])) 0).2
        = stStore.read 0 :=
  c8_getEvents_defensive_copy stStore 0 [evBoom] (by decide)

/-! ### Claim C9 -/

/-- Claim C9 confirmed: `destroy()` assigns `this.events = []` as its final
step, after the synthetic `session_end` record was (when enabled) appended,
so immediately after `destroy()` returns, the stored sequence and
`getEvents()` are empty and `getMetrics().eventCount` is 0. -/
theorem c9_destroy_clears_events (now now2 : ℕ) (sd : JsObject) (s : AnalyticsState) :
    (destroy now sd s).1.events = []
    ∧ getEvents (destroy now sd s).1 = []
    ∧ jsGet (getMetrics now2 (destroy now sd s).1) "eventCount"
        = some (JsValue.num 0) := by
  refine ⟨rfl, rfl, ?_⟩
  have hev : (destroy now sd s).1.events = [] := rfl
  simp [getMetrics, jsGet, hev]

/-! ### Claim C10 -/

/-- Claim C10 confirmed: the record data is `\x7b...data, ...metrics\x7d`
with the derived snapshot spread last, so for every derived-metrics key the
stored record carries the internally derived value — even when the caller
data binds the same key — and the spread allocates a fresh object, leaving
the caller data cell of the store untouched. -/
theorem c10_metrics_override_caller_data (now : ℕ) (ev k : String) (data : JsObject)
    (s : AnalyticsState) (hst : Store JsObject) (aRef bRef : ℕ)
    (hk : k ∈ qoeKeys) (ha : aRef < hst.cells.length)
    (he : jsEnabled s.config = true) :
    jsGet (buildRecord now ev data s).data k = jsGet (getQoEMetrics now s) k
    ∧ (jsGet (getQoEMetrics now s) k).isSome = true
    ∧ (trackEvent now ev data s).1.events = s.events ++ [buildRecord now ev data s]
    ∧ (objectSpreadAlloc hst aRef bRef).1.read aRef = hst.read aRef := by
  refine ⟨?_, jsGet_qoe_isSome now s k hk, ?_, ?_⟩
  · exact jsGet_spread_right data (getQoEMetrics now s) k (jsGet_qoe_isSome now s k hk)
  · rw [trackEvent_state_enabled now ev data s he]
  · simp only [objectSpreadAlloc, Store.alloc, Store.read]
    rw [List.getElem?_append_left ha]

/-- Witness for C10: the caller data binds `seekCount` to 99, yet the record
carries the derived value; the caller object cell is untouched. -/
theorem c10_metrics_override_caller_data_witness :
    jsGet (buildRecord 7 "seeked" [("seekCount", JsValue.num 99)] stEx).data "seekCount"
      = jsGet (getQoEMetrics 7 stEx) "seekCount"
    ∧ (jsGet (getQoEMetrics 7 stEx) "seekCount").isSome = true
    ∧ (trackEvent 7 "seeked" [("seekCount", JsValue.num 99)] stEx).1.events
        = stEx.events ++ [buildRecord 7 "seeked" [("seekCount", JsValue.num 99)] stEx]
    ∧ (objectSpreadAlloc objStore 0 1).1.read 0 = objStore.read 0 :=
  c10_metrics_override_caller_data 7 "seeked" "seekCount"
    [("seekCount", JsValue.num 99)] stEx objStore 0 1
    (by simp [qoeKeys]) (by decide) rfl

end WontumPlayer
